import Mathlib

/-!
# hbone: reverse tunnel (H2R) registration and SNI routing

A shallow embedding of `h2r.go`.  Every Go function becomes a function from
the receiver state and the arguments to a `Run`: the receiver state after the
call, the effects performed in program order, and how the call ended (a normal
return with its results, or a runtime panic).  Calls that leave the package
(TLS, HTTP/2, the sniffer, the copy loop) take their results from a `World`.
-/

namespace HBoneH2R

/-! ## Data model -/

/-- A Go `error` value; `Option Error` is the interface, `none` being `nil`. -/
abbrev Error := String

/-- Identity of a `net.Conn`. -/
abbrev Conn := Nat

/-- Identity of an `http2.ClientConn`. -/
abbrev ClientConn := Nat

/-- The Go type `*http2.ClientConn`; `none` is the nil pointer. -/
abbrev ClientConnPtr := Option ClientConn

/-- A `context.Context`. -/
abbrev Context := Nat

/-- A `*tls.Config`. -/
abbrev TLSConfig := Nat

/-- A `*tls.Conn`: the raw connection it wraps and its configuration. -/
structure TLSConn where
  conn : Conn
  conf : TLSConfig
deriving DecidableEq, Repr

/-- An `x509.Certificate`, reduced to the field the code reads. -/
structure Certificate where
  URIs : List String
deriving DecidableEq, Repr

/-- A `tls.ConnectionState`, reduced to the fields the code reads. -/
structure ConnectionState where
  ServerName : String
  PeerCertificates : List Certificate
deriving DecidableEq, Repr

/-- The readers and writers that appear in `h2r.go`. -/
inductive Port where
  | conn (c : Conn)
  | bufferReader (c : Conn)
  | pipeReader
  | pipeWriter
  | body (b : Nat)
deriving DecidableEq, Repr

/-- An `http.Request`, reduced to what `http.NewRequest` is given. -/
structure Request where
  Method : String
  URL : String
  Body : Port
deriving DecidableEq, Repr

/-- An `http.Response`, reduced to its body. -/
structure Response where
  Body : Nat
deriving DecidableEq, Repr

/-- Modelled from the spec: the type `BufferReader`, declared outside
`h2r.go`; a peekable source that wraps a raw connection. -/
structure BufferReader where
  conn : Conn
deriving DecidableEq, Repr

/-- The copy task `Stream`, declared outside `h2r.go`, with the fields that
`h2r.go` sets. -/
structure Stream where
  ID : String
  Dst : Port
  Src : Port
deriving DecidableEq, Repr

/-- The `ConnPool` interface value held by an `http2.Transport`.  The only pool
ever stored is the `*H2RConn` whose `h2t` field is that transport. -/
inductive ConnPoolRef where
  | owner
deriving DecidableEq, Repr

/-- An `http2.Transport`, reduced to its `ConnPool` field (`none` is unset). -/
structure Transport where
  ConnPool : Option ConnPoolRef
deriving DecidableEq, Repr

/-- The struct `H2RConn` (h2r.go, lines 154-158). -/
structure H2RConn where
  SNI : String
  h2t : Option Transport
  hc : ClientConnPtr
deriving DecidableEq, Repr

/-- The field `hb.Auth`, reduced to the TLS configuration. -/
structure Auth where
  TLSConfig : TLSConfig
deriving DecidableEq, Repr

/-- The route table `hb.H2R`, an allocated Go map from SNI to
`*http2.ClientConn`: `none` for an absent key, `some none` for a key that
holds a nil pointer. -/
abbrev RouteTable := String → Option ClientConnPtr

/-- The Go expression `m[k]`: the zero value (nil) when the key is absent. -/
def RouteTable.lookup (m : RouteTable) (k : String) : ClientConnPtr :=
  match m k with
  | some v => v
  | none => none

/-- The Go statement `m[k] = v`. -/
def RouteTable.store (m : RouteTable) (k : String) (v : ClientConnPtr) : RouteTable :=
  fun j => if j = k then some v else m j

/-- The struct `HBone`, declared outside `h2r.go`, with the fields that
`h2r.go` reads and writes. -/
structure HBone where
  Auth : Auth
  HandsahakeTimeout : Nat
  H2R : RouteTable

/-- The struct `Endpoint`, declared outside `h2r.go`, with the field that
`h2r.go` reads. -/
structure Endpoint where
  hb : HBone

/-! ## Effects and outcomes -/

/-- The effects of the functions of `h2r.go`, one constructor per call site. -/
inductive Event where
  | dialTLS (addr : String)
  | goServeConn (tlsCon : Option TLSConn) (ctx : Context)
  | parseTLS (s : BufferReader)
  | pipe
  | newRequest (method url : String)
  | roundTrip (rt : ClientConn) (r : Request)
  | goCopyBuffered (s : Stream)
  | copyBuffered (s : Stream)
  | recvCh
  | handshakeTimeout (tls : TLSConn) (timeout : Nat) (c : Conn)
  | newClientConn (tls : TLSConn)
  | close (c : Conn)
  | log (args : List String)
deriving DecidableEq, Repr

/-- How a call ends: it returns its results, or it panics. -/
inductive Outcome (α : Type) where
  | returned (a : α)
  | panicked (msg : String)
deriving DecidableEq, Repr

/-- A finished call: receiver state, effects in order, outcome. -/
structure Run (σ α : Type) where
  state : σ
  trace : List Event
  outcome : Outcome α

/-- The results of the calls that leave the package, and the package
variable `Debug`. -/
structure World where
  Debug : Bool
  dialTLS : Endpoint → Context → String → Option TLSConn × Option Error
  ConnectionState : TLSConn → ConnectionState
  HandshakeTimeout : TLSConn → Nat → Conn → Option Error
  NewClientConn : TLSConn → ClientConnPtr × Option Error
  ParseTLS : BufferReader → String × Option Error
  NewRequest : String → String → Port → Option Error
  RoundTrip : ClientConn → Request → Option Response × Option Error
  CopyErr : Stream → Option Error

/-- Rendering of an error value by `log.Println`. -/
def showErr : Option Error → String
  | none => "<nil>"
  | some e => e

/-! ## The connection pool adapter `H2RConn` -/

/-- The method `func (h *H2RConn) GetClientConn(req, addr)` (lines 160-162):
`return h.hc, nil`. -/
def H2RConn.GetClientConn (h : H2RConn) (_req : Option Request) (_addr : String) :
    Run H2RConn (ClientConnPtr × Option Error) :=
  { state := h, trace := [], outcome := .returned (h.hc, none) }

/-- The body of `func (h H2RConn) MarkDead(conn)` (lines 164-166), acting on
its parameter `h`: the statement `h.hc = nil`. -/
def H2RConn.MarkDead.body (h : H2RConn) (_conn : ClientConnPtr) : H2RConn :=
  { h with hc := none }

/-- A call `r.MarkDead(conn)`.  The receiver is declared by value, so the call
copies `r` into the parameter `h`, the body assigns to that copy, and the copy
is dropped when the method returns; the result is `r` as the caller and the
transport see it afterwards. -/
def H2RConn.MarkDead (r : H2RConn) (conn : ClientConnPtr) : Run H2RConn Unit :=
  let h := r
  let _dropped := H2RConn.MarkDead.body h conn
  { state := r, trace := [], outcome := .returned () }

/-! ## `HBone` as a connection pool -/

/-- The method `func (hb *HBone) GetClientConn(req, addr)` (lines 99-101):
the call `panic` with the text below. -/
def HBone.GetClientConn (hb : HBone) (_req : Option Request) (_addr : String) :
    Run HBone (ClientConnPtr × Option Error) :=
  { state := hb, trace := [], outcome := .panicked "implement me" }

/-- The method `func (hb *HBone) MarkDead(conn)` (lines 103-105). -/
def HBone.MarkDead (hb : HBone) (_conn : ClientConnPtr) : Run HBone Unit :=
  { state := hb, trace := [.log ["H2C Client con terminated"]], outcome := .returned () }

/-! ## The SNI forwarder -/

/-- Modelled from the spec: the constructor `NewBufferReader`, declared outside
`h2r.go`; it wraps the connection it is given. -/
def NewBufferReader (conn : Conn) : BufferReader :=
  { conn := conn }

/-- Modelled from the spec: the method `Close` of `BufferReader`, whose source
is not in `h2r.go`.  The comment at its call site reads "will also close the
conn ( which is the reader )", and the spec has the inbound connection closed
on every exit of the forwarder, so it is the close of the wrapped connection. -/
def BufferReader.Close (s : BufferReader) : List Event :=
  [.close s.conn]

/-- The statements of `HandleH2RSNIConn` after `defer s.Close()` (lines 51-93):
the effects up to the point where the body is left, and how it is left. -/
def HBone.HandleH2RSNIConn.body (w : World) (hb : HBone) (conn : Conn) (s : BufferReader) :
    List Event × Outcome Unit :=
  match w.ParseTLS s with
  | (_, some _) => ([.parseTLS s], .returned ())
  | (sni, none) =>
    match hb.H2R.lookup sni with
    | some rt =>
      match w.NewRequest "POST" "http:///_hbone/mtls" .pipeReader with
      | some _ =>
        ([.parseTLS s, .pipe, .newRequest "POST" "http:///_hbone/mtls"], .returned ())
      | none =>
        let r : Request := { Method := "POST", URL := "http:///_hbone/mtls", Body := .pipeReader }
        let res := (w.RoundTrip rt r).1
        let s1 : Stream := { ID := "sni-o", Dst := .pipeWriter, Src := .bufferReader s.conn }
        let started : List Event :=
          [.parseTLS s, .pipe, .newRequest "POST" "http:///_hbone/mtls", .roundTrip rt r,
            .goCopyBuffered s1]
        match res with
        | none =>
          (started, .panicked "invalid memory address or nil pointer dereference")
        | some resp =>
          let s2 : Stream := { ID := "sni-i", Src := .body resp.Body, Dst := .conn conn }
          let done : List Event :=
            if w.Debug then
              [.log ["H2RSNI done ", showErr (w.CopyErr s1), showErr (w.CopyErr s2)]]
            else []
          (started ++ [.copyBuffered s2, .recvCh] ++ done, .returned ())
    | none => ([.parseTLS s, .log ["SNI-H2R 404", sni]], .returned ())

/-- The method `func (hb *HBone) HandleH2RSNIConn(conn)` (lines 46-94).  The
deferred `s.Close()` runs when the body is left, by a return or by a panic. -/
def HBone.HandleH2RSNIConn (w : World) (hb : HBone) (conn : Conn) : Run HBone Unit :=
  let s := NewBufferReader conn
  let b := HBone.HandleH2RSNIConn.body w hb conn s
  { state := hb, trace := b.1 ++ s.Close, outcome := b.2 }

/-! ## The tunnel acceptor -/

/-- The call `tls.Server(conn, conf)`. -/
def tlsServer (conn : Conn) (conf : TLSConfig) : TLSConn :=
  { conn := conn, conf := conf }

/-- The method `func (hb *HBone) HandlerH2RConn(conn)` (lines 108-152).  The
state is the `HBone` after the call together with the `H2RConn` the call
allocated, if it got that far, as that object is when the call ends. -/
def HBone.HandlerH2RConn (w : World) (hb : HBone) (conn : Conn) :
    Run (HBone × Option H2RConn) Unit :=
  let conf := hb.Auth.TLSConfig
  let tls := tlsServer conn conf
  match w.HandshakeTimeout tls hb.HandsahakeTimeout conn with
  | some _ =>
    { state := (hb, none),
      trace := [.handshakeTimeout tls hb.HandsahakeTimeout conn, .close conn],
      outcome := .returned () }
  | none =>
    let sni := (w.ConnectionState tls).ServerName
    let accepted : List Event := if w.Debug then [.log ["H2RSNI: accepted ", sni]] else []
    let h2rc : H2RConn := { SNI := sni, h2t := some { ConnPool := none }, hc := none }
    let h2rc : H2RConn := { h2rc with h2t := some { ConnPool := some .owner } }
    let started : List Event :=
      [.handshakeTimeout tls hb.HandsahakeTimeout conn] ++ accepted ++ [.newClientConn tls]
    match w.NewClientConn tls with
    | (_, some _) =>
      { state := (hb, some h2rc), trace := started ++ [.close conn], outcome := .returned () }
    | (rt, none) =>
      let h2rc : H2RConn := { h2rc with hc := rt }
      { state := ({ hb with H2R := hb.H2R.store sni rt }, some h2rc),
        trace := started,
        outcome := .returned () }

/-! ## The tunnel dialer -/

/-- The method `func (hc *Endpoint) DialH2R(ctx, addr)` (lines 22-43).  The
arguments of the `Debug` log line are evaluated before it prints: the method
call on `tlsCon` needs a non-nil pointer and the index `[0]` an element. -/
def Endpoint.DialH2R (w : World) (hc : Endpoint) (ctx : Context) (addr : String) :
    Run Endpoint (Option TLSConn × Option Error) :=
  match w.dialTLS hc ctx addr with
  | (_, some err) =>
    { state := hc, trace := [.dialTLS addr], outcome := .returned (none, some err) }
  | (tlsCon, none) =>
    let started : List Event := [.dialTLS addr, .goServeConn tlsCon ctx]
    if w.Debug then
      match tlsCon with
      | none =>
        { state := hc, trace := started,
          outcome := .panicked "invalid memory address or nil pointer dereference" }
      | some t =>
        match (w.ConnectionState t).PeerCertificates with
        | [] =>
          { state := hc, trace := started, outcome := .panicked "index out of range [0]" }
        | cert :: _ =>
          { state := hc,
            trace := started ++
              [.log ("H2RClient started " :: (w.ConnectionState t).ServerName :: cert.URIs)],
            outcome := .returned (tlsCon, none) }
    else
      { state := hc, trace := started, outcome := .returned (tlsCon, none) }

/-! ## Observations on traces -/

/-- The effects that use a tunnel: a pipe, a request on a session, a copy. -/
def Event.usesTunnel : Event → Bool
  | .pipe => true
  | .newRequest _ _ => true
  | .roundTrip _ _ => true
  | .goCopyBuffered _ => true
  | .copyBuffered _ => true
  | _ => false

/-- The effects that write to the connection `c`: a copy whose destination
it is. -/
def Event.writesTo (c : Conn) : Event → Bool
  | .goCopyBuffered s => decide (s.Dst = .conn c)
  | .copyBuffered s => decide (s.Dst = .conn c)
  | _ => false

/-- The effects that start a server-role serving task. -/
def Event.isServe : Event → Bool
  | .goServeConn _ _ => true
  | _ => false

/-- The number of serving tasks a trace starts. -/
def serveTasks (t : List Event) : Nat :=
  (t.filter Event.isServe).length

/-! ## Concrete inputs -/

/-- A table with no entry. -/
def emptyTable : RouteTable :=
  fun _ => none

/-- An `HBone` with an empty route table and a two second handshake bound. -/
def hbEmpty : HBone :=
  { Auth := { TLSConfig := 0 }, HandsahakeTimeout := 2, H2R := emptyTable }

/-- An `HBone` whose table routes "svc.mesh" to session 12. -/
def hbMesh : HBone :=
  { hbEmpty with H2R := emptyTable.store "svc.mesh" (some 12) }

/-- A route pinned to session 7. -/
def routeSeven : H2RConn :=
  { SNI := "svc.mesh", h2t := some { ConnPool := some .owner }, hc := some 7 }

/-- A world with `Debug` on.  Dialing "tunnel.mesh:443" succeeds, any other
address is refused.  Inbound connection 9 never completes its handshake;
connections 1 and 2 present "svc.mesh" and get sessions 11 and 12; session
creation fails on connection 3.  Sniffed connections 5 and 6 carry the SNIs
"svc.mesh" and "unknown.mesh".  Session 11 answers requests, session 12 is
dead and fails them. -/
def demoWorld : World :=
  { Debug := true
    dialTLS := fun _ _ addr =>
      if addr = "tunnel.mesh:443" then (some { conn := 1, conf := 0 }, none)
      else (none, some "dial tcp: connection refused")
    ConnectionState := fun _ =>
      { ServerName := "svc.mesh", PeerCertificates := [{ URIs := ["spiffe://mesh/ns/a/sa/b"] }] }
    HandshakeTimeout := fun _ _ c => if c = 9 then some "handshake timeout" else none
    NewClientConn := fun t =>
      if t.conn = 1 then (some 11, none)
      else if t.conn = 2 then (some 12, none)
      else (none, some "http2: write preface failed")
    ParseTLS := fun s =>
      if s.conn = 5 then ("svc.mesh", none)
      else if s.conn = 6 then ("unknown.mesh", none)
      else ("", some "not a ClientHello")
    NewRequest := fun _ _ _ => none
    RoundTrip := fun rt _ =>
      if rt = 11 then (some { Body := 1 }, none)
      else (none, some "http2: client conn not usable")
    CopyErr := fun _ => none }

/-- A call of `MarkDead` leaves the route it is called on as it was. -/
theorem H2RConn.MarkDead_state (r : H2RConn) (conn : ClientConnPtr) :
    (r.MarkDead conn).state = r := rfl

/-- The body of `MarkDead` does clear the handle of the copy it works on. -/
theorem H2RConn.MarkDead_body_hc (h : H2RConn) (conn : ClientConnPtr) :
    (H2RConn.MarkDead.body h conn).hc = none := rfl

/-- A lookup after a store of the same key yields the stored pointer. -/
theorem RouteTable.lookup_store_same (m : RouteTable) (k : String) (v : ClientConnPtr) :
    (m.store k v).lookup k = v := by
  simp [RouteTable.lookup, RouteTable.store]

/-- A store leaves every other key as it was. -/
theorem RouteTable.store_other (m : RouteTable) (k j : String) (v : ClientConnPtr)
    (h : j ≠ k) : (m.store k v) j = m j := by
  simp [RouteTable.store, h]

/-- The reader made for a connection wraps that connection. -/
theorem NewBufferReader_conn (conn : Conn) : (NewBufferReader conn).conn = conn := rfl

/-- The forwarder never changes the `HBone` it runs on. -/
theorem HBone.HandleH2RSNIConn_state (w : World) (hb : HBone) (conn : Conn) :
    (HBone.HandleH2RSNIConn w hb conn).state = hb := rfl

/-- The forwarder always ends its trace with the close of the inbound
connection, on a return and on a panic alike. -/
theorem HBone.HandleH2RSNIConn_close_last (w : World) (hb : HBone) (conn : Conn) :
    (HBone.HandleH2RSNIConn w hb conn).trace.getLast? = some (.close conn) := by
  simp [HBone.HandleH2RSNIConn, BufferReader.Close, NewBufferReader]

/-- When the route is found and the request gets a response, the forwarder
runs the tunnel-to-inbound copy inline, then receives on `ch`, and only then
closes the inbound connection and returns. -/
theorem HBone.HandleH2RSNIConn_found_order (w : World) (hb : HBone) (conn : Conn)
    (sni : String) (rt : ClientConn) (resp : Response)
    (hsni : w.ParseTLS (NewBufferReader conn) = (sni, none))
    (hrt : hb.H2R.lookup sni = some rt)
    (hreq : w.NewRequest "POST" "http:///_hbone/mtls" .pipeReader = none)
    (hres : (w.RoundTrip rt
      { Method := "POST", URL := "http:///_hbone/mtls", Body := .pipeReader }).1 = some resp) :
    ∃ before logged : List Event,
      (HBone.HandleH2RSNIConn w hb conn).trace =
        before ++ [.goCopyBuffered { ID := "sni-o", Dst := .pipeWriter, Src := .bufferReader conn },
          .copyBuffered { ID := "sni-i", Src := .body resp.Body, Dst := .conn conn },
          .recvCh] ++ logged ++ [.close conn] ∧
      Event.close conn ∉ before ∧ Event.close conn ∉ logged ∧
      (HBone.HandleH2RSNIConn w hb conn).outcome = .returned () := by
  refine ⟨[.parseTLS (NewBufferReader conn), .pipe, .newRequest "POST" "http:///_hbone/mtls",
      .roundTrip rt { Method := "POST", URL := "http:///_hbone/mtls", Body := .pipeReader }],
    if w.Debug then
      [.log ["H2RSNI done ",
        showErr (w.CopyErr { ID := "sni-o", Dst := .pipeWriter, Src := .bufferReader conn }),
        showErr (w.CopyErr { ID := "sni-i", Src := .body resp.Body, Dst := .conn conn })]]
    else [], ?_, ?_, ?_, ?_⟩
  · simp [HBone.HandleH2RSNIConn, HBone.HandleH2RSNIConn.body, hsni, hrt, hreq, hres,
      BufferReader.Close, NewBufferReader_conn]
  · simp
  · cases w.Debug <;> simp
  · simp [HBone.HandleH2RSNIConn, HBone.HandleH2RSNIConn.body, hsni, hrt, hreq, hres]

/-- Whenever the route is found, the request is built and `RoundTrip` yields
a nil response, the forwarder panics after it started the inbound-to-tunnel
copy, and the deferred close is the only effect that follows. -/
theorem HBone.HandleH2RSNIConn_nil_response (w : World) (hb : HBone) (conn : Conn)
    (sni : String) (rt : ClientConn)
    (hsni : w.ParseTLS (NewBufferReader conn) = (sni, none))
    (hrt : hb.H2R.lookup sni = some rt)
    (hreq : w.NewRequest "POST" "http:///_hbone/mtls" .pipeReader = none)
    (hres : (w.RoundTrip rt
      { Method := "POST", URL := "http:///_hbone/mtls", Body := .pipeReader }).1 = none) :
    (HBone.HandleH2RSNIConn w hb conn).outcome
        = .panicked "invalid memory address or nil pointer dereference" ∧
      (HBone.HandleH2RSNIConn w hb conn).trace
        = [.parseTLS (NewBufferReader conn), .pipe, .newRequest "POST" "http:///_hbone/mtls",
            .roundTrip rt { Method := "POST", URL := "http:///_hbone/mtls", Body := .pipeReader },
            .goCopyBuffered { ID := "sni-o", Dst := .pipeWriter, Src := .bufferReader conn },
            .close conn] := by
  constructor
  · simp [HBone.HandleH2RSNIConn, HBone.HandleH2RSNIConn.body, hsni, hrt, hreq, hres]
  · simp [HBone.HandleH2RSNIConn, HBone.HandleH2RSNIConn.body, hsni, hrt, hreq, hres,
      BufferReader.Close, NewBufferReader_conn]

/-- What `DialH2R` does whatever its log line meets: it returns an error
exactly when the dial does; a failed dial gives a nil connection, the dial
error and no serving task; a successful dial starts one serving task, and if
the call returns, it returns the dialed connection with a nil error. -/
theorem Endpoint.DialH2R_always (w : World) (hc : Endpoint) (ctx : Context) (addr : String) :
    ((∃ p e, (Endpoint.DialH2R w hc ctx addr).outcome = .returned (p, some e)) ↔
        (w.dialTLS hc ctx addr).2 ≠ none) ∧
      (∀ e, (w.dialTLS hc ctx addr).2 = some e →
        (Endpoint.DialH2R w hc ctx addr).outcome = .returned (none, some e) ∧
          serveTasks (Endpoint.DialH2R w hc ctx addr).trace = 0) ∧
      ((w.dialTLS hc ctx addr).2 = none →
        serveTasks (Endpoint.DialH2R w hc ctx addr).trace = 1 ∧
          ∀ res, (Endpoint.DialH2R w hc ctx addr).outcome = .returned res →
            res = ((w.dialTLS hc ctx addr).1, none)) := by
  rcases hd : w.dialTLS hc ctx addr with ⟨tlsCon, err⟩
  cases err with
  | some e =>
    refine ⟨?_, ?_, ?_⟩
    · simp [Endpoint.DialH2R, hd]
    · intro e2 he
      simp only [Option.some.injEq] at he
      subst he
      simp [Endpoint.DialH2R, hd, serveTasks, Event.isServe]
    · intro h
      simp at h
  | none =>
    cases hdbg : w.Debug with
    | false =>
      refine ⟨?_, ?_, ?_⟩
      · simp [Endpoint.DialH2R, hd, hdbg]
      · intro e he
        simp at he
      · intro _
        simp [Endpoint.DialH2R, hd, hdbg, serveTasks, Event.isServe]
    | true =>
      cases tlsCon with
      | none =>
        refine ⟨?_, ?_, ?_⟩
        · simp [Endpoint.DialH2R, hd, hdbg]
        · intro e he
          simp at he
        · intro _
          simp [Endpoint.DialH2R, hd, hdbg, serveTasks, Event.isServe]
      | some t =>
        cases hpc : (w.ConnectionState t).PeerCertificates with
        | nil =>
          refine ⟨?_, ?_, ?_⟩
          · simp [Endpoint.DialH2R, hd, hdbg, hpc]
          · intro e he
            simp at he
          · intro _
            simp [Endpoint.DialH2R, hd, hdbg, hpc, serveTasks, Event.isServe]
        | cons cert rest =>
          refine ⟨?_, ?_, ?_⟩
          · simp [Endpoint.DialH2R, hd, hdbg, hpc]
          · intro e he
            simp at he
          · intro _
            simp [Endpoint.DialH2R, hd, hdbg, hpc, serveTasks, Event.isServe]

/-! ## The pool adapter: claims C1, C2 and C10 -/

/-- C1, evaluated on the code: for the route `routeSeven`, pinned to session 7,
a call `MarkDead(7)` followed by `GetClientConn` still returns session 7 with a
nil error, and the handle of the route is still session 7.  The claim says the
handle is cleared and nil is returned; the assignment in `MarkDead` reaches
only the by-value copy of the receiver. -/
theorem C1_MarkDead_leaves_stale_handle :
    ((routeSeven.MarkDead (some 7)).state.GetClientConn none "svc.mesh:443").outcome
        = .returned (some 7, none) ∧
      (routeSeven.MarkDead (some 7)).state.hc = some 7 ∧
      (H2RConn.MarkDead.body routeSeven (some 7)).hc = none := by
  decide

/-- C2: for every route, request and address, `GetClientConn` returns the
pinned handle `r.hc` with a nil error; the result does not depend on the
request or the address; the route (SNI, transport, handle) is unchanged; and
no effect is performed, so no session is dialed or created. -/
theorem C2_GetClientConn_returns_pinned_handle (r : H2RConn) (req req2 : Option Request)
    (addr addr2 : String) :
    (r.GetClientConn req addr).outcome = .returned (r.hc, none) ∧
      (r.GetClientConn req addr).outcome = (r.GetClientConn req2 addr2).outcome ∧
      (r.GetClientConn req addr).state = r ∧
      (r.GetClientConn req addr).trace = [] :=
  ⟨rfl, rfl, rfl, rfl⟩

/-- C10: for every `HBone`, request and address, `HBone.GetClientConn` panics:
it returns no result at all (no session, no nil session with a nil error),
performs no effect, leaves the `HBone` and its route table unchanged, and ends
the same way whatever the route table holds. -/
theorem C10_HBone_GetClientConn_panics (hb hb2 : HBone) (req : Option Request)
    (addr : String) :
    (hb.GetClientConn req addr).outcome = .panicked "implement me" ∧
      (∀ res, (hb.GetClientConn req addr).outcome ≠ .returned res) ∧
      (hb.GetClientConn req addr).trace = [] ∧
      (hb.GetClientConn req addr).state = hb ∧
      (hb.GetClientConn req addr).outcome = (hb2.GetClientConn req addr).outcome := by
  refine ⟨rfl, ?_, rfl, rfl, rfl⟩
  intro res h
  simp [HBone.GetClientConn] at h

/-! ## The tunnel acceptor: claims C3, C5 and C8 -/

/-- C3: when the handshake succeeds with server name `s` and session creation
returns session `c1` with a nil error, the table after `HandlerH2RConn` maps
`s` to `c1` whatever it held before, and the adapter allocated by the call has
SNI `s` and pinned handle `c1`; when a second connection then registers the
same SNI with session `c2`, a lookup of `s` returns `c2`. -/
theorem C3_HandlerH2RConn_registers_last_write_wins (w : World) (hb : HBone)
    (conn1 conn2 : Conn) (s : String) (c1 c2 : ClientConn)
    (hs1 : w.HandshakeTimeout (tlsServer conn1 hb.Auth.TLSConfig) hb.HandsahakeTimeout conn1
      = none)
    (hn1 : (w.ConnectionState (tlsServer conn1 hb.Auth.TLSConfig)).ServerName = s)
    (hc1 : w.NewClientConn (tlsServer conn1 hb.Auth.TLSConfig) = (some c1, none))
    (hs2 : w.HandshakeTimeout (tlsServer conn2 hb.Auth.TLSConfig) hb.HandsahakeTimeout conn2
      = none)
    (hn2 : (w.ConnectionState (tlsServer conn2 hb.Auth.TLSConfig)).ServerName = s)
    (hc2 : w.NewClientConn (tlsServer conn2 hb.Auth.TLSConfig) = (some c2, none)) :
    (HBone.HandlerH2RConn w hb conn1).state.1.H2R s = some (some c1) ∧
      (HBone.HandlerH2RConn w hb conn1).state.1.H2R.lookup s = some c1 ∧
      (HBone.HandlerH2RConn w hb conn1).state.2
        = some { SNI := s, h2t := some { ConnPool := some .owner }, hc := some c1 } ∧
      (HBone.HandlerH2RConn w (HBone.HandlerH2RConn w hb conn1).state.1 conn2).state.1.H2R.lookup s
        = some c2 := by
  have e1 : (HBone.HandlerH2RConn w hb conn1).state
      = ({ hb with H2R := hb.H2R.store s (some c1) },
          some { SNI := s, h2t := some { ConnPool := some .owner }, hc := some c1 }) := by
    simp [HBone.HandlerH2RConn, hs1, hn1, hc1]
  refine ⟨?_, ?_, ?_, ?_⟩
  · rw [e1]; simp [RouteTable.store]
  · rw [e1]; exact RouteTable.lookup_store_same _ _ _
  · rw [e1]
  · rw [e1]
    simp [HBone.HandlerH2RConn, hs2, hn2, hc2, RouteTable.lookup_store_same]

/-- Witness of C3 in `demoWorld`: connections 1 and 2 both present "svc.mesh"
and get sessions 11 and 12. -/
theorem C3_HandlerH2RConn_registers_witness :
    (HBone.HandlerH2RConn demoWorld hbEmpty 1).state.1.H2R "svc.mesh" = some (some 11) ∧
      (HBone.HandlerH2RConn demoWorld hbEmpty 1).state.1.H2R.lookup "svc.mesh" = some 11 ∧
      (HBone.HandlerH2RConn demoWorld hbEmpty 1).state.2
        = some { SNI := "svc.mesh", h2t := some { ConnPool := some .owner }, hc := some 11 } ∧
      (HBone.HandlerH2RConn demoWorld
        (HBone.HandlerH2RConn demoWorld hbEmpty 1).state.1 2).state.1.H2R.lookup "svc.mesh"
        = some 12 :=
  C3_HandlerH2RConn_registers_last_write_wins demoWorld hbEmpty 1 2 "svc.mesh" 11 12
    (by decide) (by decide) (by decide) (by decide) (by decide) (by decide)

/-- C5: if `HandlerH2RConn` fails, because `HandshakeTimeout` returns an error
or because session creation returns an error, the `HBone` after the call,
route table included, is the one before the call. -/
theorem C5_HandlerH2RConn_failure_keeps_table (w : World) (hb : HBone) (conn : Conn)
    (hfail : w.HandshakeTimeout (tlsServer conn hb.Auth.TLSConfig) hb.HandsahakeTimeout conn
        ≠ none ∨
      (w.NewClientConn (tlsServer conn hb.Auth.TLSConfig)).2 ≠ none) :
    (HBone.HandlerH2RConn w hb conn).state.1 = hb ∧
      (HBone.HandlerH2RConn w hb conn).state.1.H2R = hb.H2R := by
  have key : (HBone.HandlerH2RConn w hb conn).state.1 = hb := by
    cases hh : w.HandshakeTimeout (tlsServer conn hb.Auth.TLSConfig) hb.HandsahakeTimeout conn with
    | some e => simp [HBone.HandlerH2RConn, hh]
    | none =>
      rcases hfail with h | h
      · exact absurd hh h
      · rcases hn : w.NewClientConn (tlsServer conn hb.Auth.TLSConfig) with ⟨rt, err⟩
        rw [hn] at h
        cases err with
        | none => exact absurd rfl h
        | some e => simp [HBone.HandlerH2RConn, hh, hn]
  exact ⟨key, by rw [key]⟩

/-- Witness of C5 in `demoWorld`: the handshake of connection 9 times out. -/
theorem C5_HandlerH2RConn_failure_witness :
    (HBone.HandlerH2RConn demoWorld hbMesh 9).state.1 = hbMesh ∧
      (HBone.HandlerH2RConn demoWorld hbMesh 9).state.1.H2R = hbMesh.H2R :=
  C5_HandlerH2RConn_failure_keeps_table demoWorld hbMesh 9 (Or.inl (by decide))

/-- C8: `HandlerH2RConn` closes the accepted connection exactly when it fails:
the close is among its effects if and only if `HandshakeTimeout` returns an
error or session creation returns an error; on a successful registration it is
not. -/
theorem C8_HandlerH2RConn_closes_iff_fails (w : World) (hb : HBone) (conn : Conn) :
    Event.close conn ∈ (HBone.HandlerH2RConn w hb conn).trace ↔
      (w.HandshakeTimeout (tlsServer conn hb.Auth.TLSConfig) hb.HandsahakeTimeout conn ≠ none ∨
        (w.NewClientConn (tlsServer conn hb.Auth.TLSConfig)).2 ≠ none) := by
  cases hh : w.HandshakeTimeout (tlsServer conn hb.Auth.TLSConfig) hb.HandsahakeTimeout conn with
  | some e => simp [HBone.HandlerH2RConn, hh]
  | none =>
    rcases hn : w.NewClientConn (tlsServer conn hb.Auth.TLSConfig) with ⟨rt, err⟩
    cases err with
    | none => cases hd : w.Debug <;> simp [HBone.HandlerH2RConn, hh, hn, hd]
    | some e => simp [HBone.HandlerH2RConn, hh, hn]

/-! ## The SNI forwarder: claims C4, C6 and C7 -/

/-- C4: when the sniffer returns SNI `s` and the route table has no entry for
`s`, or a nil one, `HandleH2RSNIConn` reads the hello, logs the miss and closes
the inbound connection, nothing else: no pipe, request, `RoundTrip` or copy is
among its effects, nothing is written to the inbound connection, the inbound
connection is closed, the call returns, and the `HBone` with its route table
is unchanged. -/
theorem C4_HandleH2RSNIConn_no_route (w : World) (hb : HBone) (conn : Conn) (s : String)
    (hsni : w.ParseTLS (NewBufferReader conn) = (s, none))
    (hrt : hb.H2R s = none ∨ hb.H2R s = some none) :
    (HBone.HandleH2RSNIConn w hb conn).trace
        = [.parseTLS (NewBufferReader conn), .log ["SNI-H2R 404", s], .close conn] ∧
      (∀ e ∈ (HBone.HandleH2RSNIConn w hb conn).trace, e.usesTunnel = false) ∧
      (∀ e ∈ (HBone.HandleH2RSNIConn w hb conn).trace, e.writesTo conn = false) ∧
      Event.close conn ∈ (HBone.HandleH2RSNIConn w hb conn).trace ∧
      (HBone.HandleH2RSNIConn w hb conn).outcome = .returned () ∧
      (HBone.HandleH2RSNIConn w hb conn).state = hb ∧
      (HBone.HandleH2RSNIConn w hb conn).state.H2R = hb.H2R := by
  have hl : hb.H2R.lookup s = none := by
    rcases hrt with h | h <;> simp [RouteTable.lookup, h]
  have ht : (HBone.HandleH2RSNIConn w hb conn).trace
      = [.parseTLS (NewBufferReader conn), .log ["SNI-H2R 404", s], .close conn] := by
    simp [HBone.HandleH2RSNIConn, HBone.HandleH2RSNIConn.body, hsni, hl, BufferReader.Close,
      NewBufferReader_conn]
  refine ⟨ht, ?_, ?_, ?_, ?_, rfl, rfl⟩
  · rw [ht]; simp [Event.usesTunnel]
  · rw [ht]; simp [Event.writesTo]
  · rw [ht]; simp
  · simp [HBone.HandleH2RSNIConn, HBone.HandleH2RSNIConn.body, hsni, hl]

/-- Witness of C4 in `demoWorld`: connection 6 carries "unknown.mesh", which
the table of `hbMesh` does not hold. -/
theorem C4_HandleH2RSNIConn_no_route_witness :
    (HBone.HandleH2RSNIConn demoWorld hbMesh 6).trace
        = [.parseTLS (NewBufferReader 6), .log ["SNI-H2R 404", "unknown.mesh"], .close 6] ∧
      (∀ e ∈ (HBone.HandleH2RSNIConn demoWorld hbMesh 6).trace, e.usesTunnel = false) ∧
      (∀ e ∈ (HBone.HandleH2RSNIConn demoWorld hbMesh 6).trace, e.writesTo 6 = false) ∧
      Event.close 6 ∈ (HBone.HandleH2RSNIConn demoWorld hbMesh 6).trace ∧
      (HBone.HandleH2RSNIConn demoWorld hbMesh 6).outcome = .returned () ∧
      (HBone.HandleH2RSNIConn demoWorld hbMesh 6).state = hbMesh ∧
      (HBone.HandleH2RSNIConn demoWorld hbMesh 6).state.H2R = hbMesh.H2R :=
  C4_HandleH2RSNIConn_no_route demoWorld hbMesh 6 "unknown.mesh" (by decide)
    (Or.inl (by decide))

/-- C6, evaluated on the code: in `demoWorld` the table of `hbMesh` routes
"svc.mesh" to session 12, whose `RoundTrip` returns a nil response and an
error; for inbound connection 5, which carries that SNI, `HandleH2RSNIConn`
does not return: it panics on the nil response at `res.Body`.  The claim says
the call terminates normally. -/
theorem C6_HandleH2RSNIConn_panics_on_RoundTrip_error :
    demoWorld.ParseTLS (NewBufferReader 5) = ("svc.mesh", none) ∧
      hbMesh.H2R.lookup "svc.mesh" = some 12 ∧
      demoWorld.RoundTrip 12
          { Method := "POST", URL := "http:///_hbone/mtls", Body := .pipeReader }
        = (none, some "http2: client conn not usable") ∧
      (HBone.HandleH2RSNIConn demoWorld hbMesh 5).outcome
        = .panicked "invalid memory address or nil pointer dereference" ∧
      (HBone.HandleH2RSNIConn demoWorld hbMesh 5).outcome ≠ .returned () := by
  decide

/-- C7, evaluated on the code: on the same input as C6 the route is found, the
inbound-to-tunnel copy `s1` is started, and the deferred close of the inbound
connection then runs although the tunnel-to-inbound copy `s2` was never run
and `ch` was never received from.  The claim says the close never runs before
both copies have completed. -/
theorem C7_HandleH2RSNIConn_close_before_copies :
    (HBone.HandleH2RSNIConn demoWorld hbMesh 5).trace
        = [.parseTLS (NewBufferReader 5), .pipe, .newRequest "POST" "http:///_hbone/mtls",
            .roundTrip 12 { Method := "POST", URL := "http:///_hbone/mtls", Body := .pipeReader },
            .goCopyBuffered { ID := "sni-o", Dst := .pipeWriter, Src := .bufferReader 5 },
            .close 5] ∧
      Event.recvCh ∉ (HBone.HandleH2RSNIConn demoWorld hbMesh 5).trace ∧
      (∀ s2, Event.copyBuffered s2 ∉ (HBone.HandleH2RSNIConn demoWorld hbMesh 5).trace) := by
  have ht : (HBone.HandleH2RSNIConn demoWorld hbMesh 5).trace
      = [.parseTLS (NewBufferReader 5), .pipe, .newRequest "POST" "http:///_hbone/mtls",
          .roundTrip 12 { Method := "POST", URL := "http:///_hbone/mtls", Body := .pipeReader },
          .goCopyBuffered { ID := "sni-o", Dst := .pipeWriter, Src := .bufferReader 5 },
          .close 5] := by
    decide
  refine ⟨ht, ?_, ?_⟩
  · rw [ht]; simp
  · intro s2; rw [ht]; simp

/-! ## The tunnel dialer: claim C9 -/

end HBoneH2R
